import Mathlib

/-!
# Layout.js: quota calculator, session handlers and usage indicator

A shallow embedding of the logic of `src/Layout.js`.

Modelling choices.

* A user record is a typed record: every field is optional (`none` stands for an
  absent, `undefined` or `null` property), strings are `String`, the daily counter
  is an `Int` (counts are integers well inside the range in which JavaScript
  numbers are exact).
* `new Date().toISOString()` is the only reading of the clock; its result is a
  parameter `isoNow` of the functions that use it.
* A handler is run on the render snapshot of the component state; the
  collaborator it awaits (`User.me`, `User.logout`, `User.updateMyUserData`) is
  given by its outcome, `Except.ok` for a resolved promise and `Except.error` for
  a rejected one.  A handler returns the new state, the trace of the effects it
  performed and its own completion (`Except.error` when an exception escapes).
-/

namespace Layout

/-! ## Values -/

/-- The JavaScript values the quota calculator can produce. `inherited key` is the
member of `Object.prototype` reached through the prototype chain under `key`. -/
inductive JSValue where
  | undefined
  | nan
  | num (n : Int)
  | inherited (key : String)
  deriving DecidableEq, Repr

/-- Property names every plain object inherits from `Object.prototype`. -/
def objectPrototypeKeys : List String :=
  ["constructor", "__defineGetter__", "__defineSetter__", "hasOwnProperty",
   "__lookupGetter__", "__lookupSetter__", "isPrototypeOf", "propertyIsEnumerable",
   "toString", "valueOf", "__proto__", "toLocaleString"]

/-- The user record, as far as the component reads it. -/
structure User where
  subscription_tier : Option String
  videos_generated_today : Option Int
  last_generation_date : Option String
  preferred_language : Option String
  deriving DecidableEq, Repr

/-! ## Quota calculator -/

/-- The table `subscriptionLimits`, read as `subscriptionLimits[tier]`: an own
property, else an inherited member, else `undefined`. -/
def subscriptionLimits (tier : String) : JSValue :=
  if tier = "free" then .num 1
  else if tier = "pro" then .num 5
  else if tier = "ultimate" then .num 999
  else if tier ∈ objectPrototypeKeys then .inherited tier
  else .undefined

/-- The expression `s || d` on an optional string: the empty string is falsy. -/
def strOr (s : Option String) (d : String) : String :=
  match s with
  | none => d
  | some v => if v = "" then d else v

/-- The expression `n || 0` on an optional number: zero is falsy. -/
def numOr0 (n : Option Int) : Int :=
  match n with
  | none => 0
  | some v => v

/-- The expression `isoNow.split('T')[0]`: the text before the first `T`. -/
def isoDate (isoNow : String) : String :=
  String.mk (isoNow.toList.takeWhile (fun c => c != 'T'))

/-- The expression `limit - count`, with `count` a number. -/
def jsSub (limit : JSValue) (count : Int) : JSValue :=
  match limit with
  | .num l => .num (l - count)
  | _ => .nan

/-- The call `Math.max(0, x)`. -/
def mathMax0 (x : JSValue) : JSValue :=
  match x with
  | .num n => .num (max 0 n)
  | _ => .nan

/-- The function `getRemainingVideos`, on the `user` of the render snapshot. -/
def getRemainingVideos (isoNow : String) (user : Option User) : JSValue :=
  match user with
  | none => .num 0
  | some user =>
    let tier := strOr user.subscription_tier "free"
    let limit := subscriptionLimits tier
    let today := isoDate isoNow
    let lastGenDate := user.last_generation_date
    if lastGenDate ≠ some today then limit
    else mathMax0 (jsSub limit (numOr0 user.videos_generated_today))

/-! ## Component state, effects and handlers -/

/-- The four `useState` cells of the component. -/
structure State where
  user : Option User
  isMenuOpen : Bool
  language : String
  isLoading : Bool
  deriving DecidableEq, Repr

/-- The state at mount: `useState(null)`, `useState(false)`, `useState("en")`,
`useState(true)`. -/
def State.atMount : State := ⟨none, false, "en", true⟩

/-- A thrown value, or the reason of a rejected promise. -/
abbrev Err := String

deriving instance DecidableEq for Except

/-- The effects a handler has on its collaborators. `navigate page` is the
assignment `window.location.href = createPageUrl(page)`. -/
inductive Effect where
  | me
  | logout
  | updateMyUserData (preferred_language : String)
  | consoleError (message : String) (error : Err)
  | navigate (page : String)
  deriving DecidableEq, Repr

/-- What a running handler acts on: the pending component state and the effects
performed so far, oldest first. -/
structure World where
  state : State
  trace : List Effect
  deriving DecidableEq, Repr

/-- The completion of a computation (`Except.error` for a throw) and the world it
leaves behind. -/
structure Run (α : Type) where
  result : Except Err α
  world : World

/-- A computation of a handler body. -/
def Act (α : Type) : Type := World → Run α

/-- Sequencing: a throw skips the rest and keeps the world reached so far. -/
def Act.bind {α β : Type} (m : Act α) (f : α → Act β) : Act β := fun w =>
  match m w with
  | ⟨.ok a, w1⟩ => f a w1
  | ⟨.error e, w1⟩ => ⟨.error e, w1⟩

instance : Monad Act where
  pure a := fun w => ⟨.ok a, w⟩
  bind := Act.bind

/-- The statement `throw e`. -/
def raise {α : Type} (e : Err) : Act α := fun w => ⟨.error e, w⟩

/-- The expression `await call`, with the promise settled as `outcome`. -/
def await {α : Type} (call : Effect) (outcome : Except Err α) : Act α := fun w =>
  ⟨outcome, { w with trace := w.trace ++ [call] }⟩

/-- An effect that cannot fail. -/
def perform (eff : Effect) : Act Unit := fun w =>
  ⟨.ok (), { w with trace := w.trace ++ [eff] }⟩

/-- The setter `setUser`. -/
def setUser (u : Option User) : Act Unit := fun w =>
  ⟨.ok (), { w with state := { w.state with user := u } }⟩

/-- The setter `setLanguage`. -/
def setLanguage (l : String) : Act Unit := fun w =>
  ⟨.ok (), { w with state := { w.state with language := l } }⟩

/-- The setter `setIsLoading`. -/
def setIsLoading (b : Bool) : Act Unit := fun w =>
  ⟨.ok (), { w with state := { w.state with isLoading := b } }⟩

/-- The statement `try { body } catch (error) { handler }`. -/
def tryCatch (body : Act Unit) (handler : Err → Act Unit) : Act Unit := fun w =>
  match body w with
  | ⟨.ok a, w1⟩ => ⟨.ok a, w1⟩
  | ⟨.error e, w1⟩ => handler e w1

/-- The statement `try { body } finally { fin }`. -/
def tryFinally (body : Act Unit) (fin : Act Unit) : Act Unit := fun w =>
  match body w with
  | ⟨r, w1⟩ =>
    match fin w1 with
    | ⟨.ok _, w2⟩ => ⟨r, w2⟩
    | ⟨.error e, w2⟩ => ⟨.error e, w2⟩

/-- The handler `checkAuth`; `me` is the outcome of `User.me()`, resolved with a
user record or with `null`. -/
def checkAuth (me : Except Err (Option User)) : Act Unit :=
  tryFinally
    (tryCatch
      (do
        let userData ← await .me me
        setUser userData
        match userData with
        | none => raise "TypeError"
        | some u => setLanguage (strOr u.preferred_language "en"))
      (fun _ => setUser none))
    (setIsLoading false)

/-- The handler `handleLogout`; `logout` is the outcome of `User.logout()`. -/
def handleLogout (logout : Except Err Unit) : Act Unit :=
  tryCatch
    (do
      await .logout logout
      setUser none
      perform (.navigate "Home"))
    (fun error => perform (.consoleError "Logout failed:" error))

/-- The handler `switchLanguage`; `user` is read from the render snapshot and
`update` is the outcome of `User.updateMyUserData`. -/
def switchLanguage (snapshot : State) (newLang : String) (update : Except Err Unit) :
    Act Unit := do
  setLanguage newLang
  if snapshot.user.isSome then
    tryCatch
      (await (.updateMyUserData newLang) update)
      (fun error => perform (.consoleError "Failed to update language:" error))
  else
    pure ()

/-- Run a handler on a render snapshot, with an empty trace. -/
def runOn (snapshot : State) (handler : Act Unit) : Run Unit :=
  handler ⟨snapshot, []⟩

/-- The languages carried by the calls to `User.updateMyUserData` in a trace. -/
def persistenceCalls (trace : List Effect) : List String :=
  trace.filterMap fun eff =>
    match eff with
    | .updateMyUserData l => some l
    | _ => none

/-! ## Usage indicator -/

/-- One entry of the table `translations`. -/
structure Labels where
  home : String
  generate : String
  dashboard : String
  pricing : String
  login : String
  logout : String
  profile : String
  language : String
  videosLeft : String
  unlimited : String
  upgrade : String
  deriving DecidableEq, Repr

/-- The value of `translations[language]`. -/
inductive LabelTable where
  | labels (l : Labels)
  | inherited (key : String)
  | undefined
  deriving DecidableEq, Repr

/-- The table `translations`, read as `translations[language]`. -/
def translations (language : String) : LabelTable :=
  if language = "en" then
    .labels ⟨"Home", "Generate", "Dashboard", "Pricing", "Login", "Logout", "Profile",
      "Language", "videos left today", "Unlimited", "Upgrade"⟩
  else if language = "zh" then
    .labels ⟨"首页", "生成视频", "仪表板", "定价", "登录", "退出", "个人资料",
      "语言", "今日剩余视频", "无限制", "升级"⟩
  else if language ∈ objectPrototypeKeys then .inherited language
  else .undefined

/-- A property read `t.field`: a label, `undefined` (`none`) on an inherited
member, a `TypeError` on `undefined`. -/
def label (t : LabelTable) (field : Labels → String) : Except Err (Option String) :=
  match t with
  | .labels l => .ok (some (field l))
  | .inherited _ => .ok none
  | .undefined => .error "TypeError"

/-- The text of a value inside a template literal. `nativeText key` is the text the
engine gives the inherited member under `key`. -/
def templateText (nativeText : String → String) (v : JSValue) : String :=
  match v with
  | .undefined => "undefined"
  | .nan => "NaN"
  | .num n => toString n
  | .inherited key => nativeText key

/-- The child of the usage indicator's `span`, in the branch of a non-null `user`:
`user.subscription_tier === 'ultimate' ? t.unlimited : ...`. The result `none` is
`undefined`, which renders no text. -/
def usageText (nativeText : String → String) (isoNow : String) (language : String)
    (user : User) : Except Err (Option String) :=
  let t := translations language
  if user.subscription_tier = some "ultimate" then label t Labels.unlimited
  else
    let remaining := templateText nativeText (getRemainingVideos isoNow (some user))
    match label t Labels.videosLeft with
    | .error e => .error e
    | .ok videosLeft => .ok (some (remaining ++ " " ++ videosLeft.getD "undefined"))

/-! ## Theorems: quota calculator -/

/-- C1: for a non-null user of a known tier whose `last_generation_date` is today's
date, `getRemainingVideos` returns `max(0, limit - videos_generated_today)` with the
limits free = 1, pro = 5, ultimate = 999 and an absent count read as 0; so a count
of 0 gives the limit, pro with 3 generated gives 2 and ultimate with 500 gives 499. -/
theorem getRemainingVideos_today (isoNow : String) (u : User)
    (hdate : u.last_generation_date = some (isoDate isoNow)) :
    (u.subscription_tier = some "free" →
      getRemainingVideos isoNow (some u)
        = .num (max 0 (1 - u.videos_generated_today.getD 0))) ∧
    (u.subscription_tier = some "pro" →
      getRemainingVideos isoNow (some u)
        = .num (max 0 (5 - u.videos_generated_today.getD 0))) ∧
    (u.subscription_tier = some "ultimate" →
      getRemainingVideos isoNow (some u)
        = .num (max 0 (999 - u.videos_generated_today.getD 0))) ∧
    (u.videos_generated_today = none ∨ u.videos_generated_today = some 0 →
      (u.subscription_tier = some "free" → getRemainingVideos isoNow (some u) = .num 1) ∧
      (u.subscription_tier = some "pro" → getRemainingVideos isoNow (some u) = .num 5) ∧
      (u.subscription_tier = some "ultimate" →
        getRemainingVideos isoNow (some u) = .num 999)) ∧
    (u.subscription_tier = some "pro" → u.videos_generated_today = some 3 →
      getRemainingVideos isoNow (some u) = .num 2) ∧
    (u.subscription_tier = some "ultimate" → u.videos_generated_today = some 500 →
      getRemainingVideos isoNow (some u) = .num 499) := by
  obtain ⟨tier, count, date, lang⟩ := u
  simp only at hdate
  subst hdate
  refine ⟨?_, ?_, ?_, ?_, ?_, ?_⟩
  · rintro rfl
    cases count <;>
      simp [getRemainingVideos, strOr, subscriptionLimits, jsSub, mathMax0, numOr0]
  · rintro rfl
    cases count <;>
      simp [getRemainingVideos, strOr, subscriptionLimits, jsSub, mathMax0, numOr0]
  · rintro rfl
    cases count <;>
      simp [getRemainingVideos, strOr, subscriptionLimits, jsSub, mathMax0, numOr0]
  · rintro (h | h) <;> simp only at h <;> subst h <;>
      refine ⟨?_, ?_, ?_⟩ <;> rintro rfl <;>
      simp [getRemainingVideos, strOr, subscriptionLimits, jsSub, mathMax0, numOr0]
  · rintro rfl h
    simp only at h
    subst h
    simp [getRemainingVideos, strOr, subscriptionLimits, jsSub, mathMax0, numOr0]
  · rintro rfl h
    simp only at h
    subst h
    simp [getRemainingVideos, strOr, subscriptionLimits, jsSub, mathMax0, numOr0]

/-- Witness of C1: a pro user with 3 videos generated on 2026-11-06. -/
theorem getRemainingVideos_today_witness :
    getRemainingVideos "2026-11-06T09:30:00.000Z"
      (some ⟨some "pro", some 3, some "2026-11-06", some "en"⟩) = .num 2 :=
  (getRemainingVideos_today "2026-11-06T09:30:00.000Z"
    ⟨some "pro", some 3, some "2026-11-06", some "en"⟩ (by decide)).2.2.2.2.1
    (by decide) (by decide)

/-- C2: reset by date. For a non-null user of a known tier whose
`last_generation_date` differs from today's date or is absent, `getRemainingVideos`
returns the full limit of the tier, whatever `videos_generated_today` holds. -/
theorem getRemainingVideos_other_day (isoNow : String) (u : User)
    (hdate : u.last_generation_date ≠ some (isoDate isoNow)) :
    (u.subscription_tier = some "free" → getRemainingVideos isoNow (some u) = .num 1) ∧
    (u.subscription_tier = some "pro" → getRemainingVideos isoNow (some u) = .num 5) ∧
    (u.subscription_tier = some "ultimate" →
      getRemainingVideos isoNow (some u) = .num 999) := by
  obtain ⟨tier, count, date, lang⟩ := u
  simp only at hdate
  refine ⟨?_, ?_, ?_⟩ <;> rintro rfl <;>
    simp [getRemainingVideos, strOr, subscriptionLimits, hdate]

/-- Witness of C2: a pro user whose 5 videos were generated the day before, and a
free user with no `last_generation_date`. -/
theorem getRemainingVideos_other_day_witness :
    getRemainingVideos "2026-11-06T09:30:00.000Z"
      (some ⟨some "pro", some 5, some "2026-11-05", none⟩) = .num 5 ∧
    getRemainingVideos "2026-11-06T09:30:00.000Z"
      (some ⟨some "free", some 7, none, none⟩) = .num 1 :=
  ⟨(getRemainingVideos_other_day "2026-11-06T09:30:00.000Z"
      ⟨some "pro", some 5, some "2026-11-05", none⟩ (by decide)).2.1 (by decide),
   (getRemainingVideos_other_day "2026-11-06T09:30:00.000Z"
      ⟨some "free", some 7, none, none⟩ (by decide)).1 (by decide)⟩

/-- C3, at the failing input: a user of tier "enterprise" gets `undefined` on a new
day and `NaN` on the day of the last generation, not the free quota. -/
theorem getRemainingVideos_enterprise :
    getRemainingVideos "2026-11-06T09:30:00.000Z"
      (some ⟨some "enterprise", some 0, some "2026-11-05", none⟩) = .undefined ∧
    getRemainingVideos "2026-11-06T09:30:00.000Z"
      (some ⟨some "enterprise", some 0, some "2026-11-06", none⟩) = .nan := by
  decide

/-- A missing or empty tier is read as free: the part of C3 the code does. -/
theorem getRemainingVideos_missing_tier (isoNow : String) (u : User)
    (htier : u.subscription_tier = none ∨ u.subscription_tier = some "") :
    (u.last_generation_date ≠ some (isoDate isoNow) →
      getRemainingVideos isoNow (some u) = .num 1) ∧
    (u.last_generation_date = some (isoDate isoNow) →
      getRemainingVideos isoNow (some u)
        = .num (max 0 (1 - u.videos_generated_today.getD 0))) := by
  obtain ⟨tier, count, date, lang⟩ := u
  simp only at htier
  constructor
  · intro hdate
    simp only at hdate
    rcases htier with rfl | rfl <;>
      simp [getRemainingVideos, strOr, subscriptionLimits, hdate]
  · intro hdate
    simp only at hdate
    subst hdate
    rcases htier with rfl | rfl <;> cases count <;>
      simp [getRemainingVideos, strOr, subscriptionLimits, jsSub, mathMax0, numOr0]

/-- A tier that is not empty and not in the table never yields a number. -/
theorem getRemainingVideos_unknown_tier (isoNow : String) (u : User) (tier : String)
    (htier : u.subscription_tier = some tier) (h0 : tier ≠ "")
    (h1 : tier ≠ "free") (h2 : tier ≠ "pro") (h3 : tier ≠ "ultimate") (n : Int) :
    getRemainingVideos isoNow (some u) ≠ .num n := by
  obtain ⟨t, count, date, lang⟩ := u
  simp only at htier
  subst htier
  simp only [getRemainingVideos, strOr, subscriptionLimits, h0, h1, h2, h3, if_false]
  split <;> split <;> simp [jsSub, mathMax0]

/-- C5: for a known tier, `getRemainingVideos` returns a number that is never
negative; with a non-negative count it is at most the limit of the tier; with a
count at or above the limit on the day of the last generation it is exactly 0. -/
theorem getRemainingVideos_bounds (isoNow : String) (u : User) (tier : String)
    (limit : Int) (htier : u.subscription_tier = some tier)
    (hlimit : (tier = "free" ∧ limit = 1) ∨ (tier = "pro" ∧ limit = 5) ∨
      (tier = "ultimate" ∧ limit = 999)) :
    ∃ n : Int, getRemainingVideos isoNow (some u) = .num n ∧ 0 ≤ n ∧
      (0 ≤ u.videos_generated_today.getD 0 → n ≤ limit) ∧
      (u.last_generation_date = some (isoDate isoNow) →
        limit ≤ u.videos_generated_today.getD 0 → n = 0) := by
  obtain ⟨t, count, date, lang⟩ := u
  simp only at htier
  subst htier
  by_cases hdate : date = some (isoDate isoNow)
  · subst hdate
    rcases hlimit with ⟨rfl, rfl⟩ | ⟨rfl, rfl⟩ | ⟨rfl, rfl⟩ <;> cases count <;>
      simp [getRemainingVideos, strOr, subscriptionLimits, jsSub, mathMax0, numOr0]
  · rcases hlimit with ⟨rfl, rfl⟩ | ⟨rfl, rfl⟩ | ⟨rfl, rfl⟩ <;>
      simp [getRemainingVideos, strOr, subscriptionLimits, hdate]

/-- Witness of C5: a pro user with 7 videos generated today has 0 left. -/
theorem getRemainingVideos_bounds_witness :
    ∃ n : Int, getRemainingVideos "2026-11-06T09:30:00.000Z"
        (some ⟨some "pro", some 7, some "2026-11-06", none⟩) = .num n ∧ 0 ≤ n ∧
      ((0 : Int) ≤ 7 → n ≤ 5) ∧
      (some "2026-11-06" = some (isoDate "2026-11-06T09:30:00.000Z") →
        (5 : Int) ≤ 7 → n = 0) :=
  getRemainingVideos_bounds "2026-11-06T09:30:00.000Z"
    ⟨some "pro", some 7, some "2026-11-06", none⟩ "pro" 5 rfl
    (Or.inr (Or.inl ⟨rfl, rfl⟩))

/-- C6: with a null user `getRemainingVideos` returns 0, whatever the clock reads. -/
theorem getRemainingVideos_null (isoNow : String) :
    getRemainingVideos isoNow none = .num 0 := rfl

/-! ## Theorems: handlers -/

/-- C4, as stated, fails: when `User.logout()` rejects, `handleLogout` leaves the
previous user in the state. -/
theorem handleLogout_failure_keeps_user :
    (runOn ⟨some ⟨some "pro", some 3, some "2026-11-06", some "en"⟩, false, "en", false⟩
      (handleLogout (.error "network"))).world.state.user
      = some ⟨some "pro", some 3, some "2026-11-06", some "en"⟩ ∧
    ¬ (runOn ⟨some ⟨some "pro", some 3, some "2026-11-06", some "en"⟩, false, "en", false⟩
      (handleLogout (.error "network"))).world.state.user = none := by
  decide

/-- C4, amended: when `User.logout()` resolves, `handleLogout` sets the user to
null, changes nothing else of the state and navigates to Home; when it rejects, the
failure is logged, the state is left as it was and no error escapes. -/
theorem handleLogout_outcomes (s : State) (logout : Except Err Unit) :
    (logout = .ok () →
      (runOn s (handleLogout logout)).world.state = { s with user := none } ∧
      (runOn s (handleLogout logout)).world.trace = [.logout, .navigate "Home"] ∧
      (runOn s (handleLogout logout)).result = .ok ()) ∧
    (∀ e : Err, logout = .error e →
      (runOn s (handleLogout logout)).world.state = s ∧
      (runOn s (handleLogout logout)).world.trace
        = [.logout, .consoleError "Logout failed:" e] ∧
      (runOn s (handleLogout logout)).result = .ok ()) := by
  constructor
  · rintro rfl
    exact ⟨rfl, rfl, rfl⟩
  · rintro e rfl
    exact ⟨rfl, rfl, rfl⟩

/-- Witness of the amended C4: a logout that resolves and one that rejects, from
the state of a logged-in pro user. -/
theorem handleLogout_outcomes_witness :
    (runOn ⟨some ⟨some "pro", some 3, none, none⟩, true, "zh", false⟩
      (handleLogout (.ok ()))).world.state = ⟨none, true, "zh", false⟩ ∧
    (runOn ⟨some ⟨some "pro", some 3, none, none⟩, true, "zh", false⟩
      (handleLogout (.error "network"))).world.state
      = ⟨some ⟨some "pro", some 3, none, none⟩, true, "zh", false⟩ :=
  ⟨((handleLogout_outcomes ⟨some ⟨some "pro", some 3, none, none⟩, true, "zh", false⟩
      (.ok ())).1 rfl).1,
   ((handleLogout_outcomes ⟨some ⟨some "pro", some 3, none, none⟩, true, "zh", false⟩
      (.error "network")).2 "network" rfl).1⟩

/-- C7: with a null user `switchLanguage(newLang)` performs no effect at all, so no
call to `User.updateMyUserData`, and changes only the language; with a non-null
user it makes exactly one such call, carrying `newLang`. -/
theorem switchLanguage_persistence (s : State) (newLang : String)
    (update : Except Err Unit) :
    (s.user = none →
      persistenceCalls (runOn s (switchLanguage s newLang update)).world.trace = [] ∧
      (runOn s (switchLanguage s newLang update)).world.trace = [] ∧
      (runOn s (switchLanguage s newLang update)).world.state.language = newLang ∧
      (runOn s (switchLanguage s newLang update)).world.state.user = s.user ∧
      (runOn s (switchLanguage s newLang update)).world.state.isMenuOpen = s.isMenuOpen ∧
      (runOn s (switchLanguage s newLang update)).world.state.isLoading = s.isLoading) ∧
    (s.user ≠ none →
      persistenceCalls (runOn s (switchLanguage s newLang update)).world.trace
        = [newLang]) := by
  obtain ⟨user, menu, lang, loading⟩ := s
  constructor
  · intro h
    simp only at h
    subst h
    exact ⟨rfl, rfl, rfl, rfl, rfl, rfl⟩
  · intro h
    cases user with
    | none => exact absurd rfl h
    | some u => cases update <;> rfl

/-- Witness of C7: a switch to "zh" at mount (null user), and one with a user. -/
theorem switchLanguage_persistence_witness :
    (runOn State.atMount (switchLanguage State.atMount "zh" (.ok ()))).world.trace
      = [] ∧
    persistenceCalls (runOn ⟨some ⟨none, none, none, none⟩, false, "en", false⟩
      (switchLanguage ⟨some ⟨none, none, none, none⟩, false, "en", false⟩ "zh"
        (.error "network"))).world.trace = ["zh"] :=
  ⟨((switchLanguage_persistence State.atMount "zh" (.ok ())).1 rfl).2.1,
   (switchLanguage_persistence ⟨some ⟨none, none, none, none⟩, false, "en", false⟩ "zh"
      (.error "network")).2 (by decide)⟩

/-- C8: after `switchLanguage(newLang)` the language is `newLang` and the handler
completes without an error, whether the persistence call resolves, rejects or is
not made. -/
theorem switchLanguage_optimistic (s : State) (newLang : String)
    (update : Except Err Unit) :
    (runOn s (switchLanguage s newLang update)).world.state.language = newLang ∧
    (runOn s (switchLanguage s newLang update)).result = .ok () := by
  obtain ⟨user, menu, lang, loading⟩ := s
  cases user with
  | none => exact ⟨rfl, rfl⟩
  | some u => cases update <;> exact ⟨rfl, rfl⟩

/-- C9: if `User.me()` resolves with user `u`, `checkAuth` leaves `user = u` and the
language `u.preferred_language`, or "en" when that is absent or empty; if it
rejects, `user` is null and the language is unchanged. In both cases `isLoading`
ends false and no error escapes. -/
theorem checkAuth_outcomes (s : State) (me : Except Err (Option User)) :
    (∀ u : User, me = .ok (some u) →
      (runOn s (checkAuth me)).world.state.user = some u ∧
      (∀ l : String, u.preferred_language = some l → l ≠ "" →
        (runOn s (checkAuth me)).world.state.language = l) ∧
      (u.preferred_language = none ∨ u.preferred_language = some "" →
        (runOn s (checkAuth me)).world.state.language = "en") ∧
      (runOn s (checkAuth me)).world.state.isLoading = false ∧
      (runOn s (checkAuth me)).result = .ok ()) ∧
    (∀ e : Err, me = .error e →
      (runOn s (checkAuth me)).world.state.user = none ∧
      (runOn s (checkAuth me)).world.state.language = s.language ∧
      (runOn s (checkAuth me)).world.state.isLoading = false ∧
      (runOn s (checkAuth me)).result = .ok ()) := by
  constructor
  · rintro u rfl
    refine ⟨rfl, ?_, ?_, rfl, rfl⟩
    · intro l hl hne
      show strOr u.preferred_language "en" = l
      simp [strOr, hl, hne]
    · intro h
      show strOr u.preferred_language "en" = "en"
      rcases h with h | h <;> simp [strOr, h]
  · rintro e rfl
    exact ⟨rfl, rfl, rfl, rfl⟩

/-- Witness of C9: at mount, a session of a user who prefers "zh", and a rejected
request. -/
theorem checkAuth_outcomes_witness :
    (runOn State.atMount
      (checkAuth (.ok (some ⟨some "pro", some 3, none, some "zh"⟩)))).world.state.language
      = "zh" ∧
    (runOn State.atMount (checkAuth (.error "401"))).world.state.user = none :=
  ⟨((checkAuth_outcomes State.atMount (.ok (some ⟨some "pro", some 3, none, some "zh"⟩))).1
      ⟨some "pro", some 3, none, some "zh"⟩ rfl).2.1 "zh" rfl (by decide),
   ((checkAuth_outcomes State.atMount (.error "401")).2 "401" rfl).1⟩

/-! ## Theorems: usage indicator -/

/-- The languages that have labels of their own are "en" and "zh". -/
theorem translations_labels (language : String) (l : Labels)
    (h : translations language = .labels l) :
    (language = "en" ∧ l.unlimited = "Unlimited" ∧ l.videosLeft = "videos left today") ∨
    (language = "zh" ∧ l.unlimited = "无限制" ∧ l.videosLeft = "今日剩余视频") := by
  unfold translations at h
  split at h
  · left
    cases h
    exact ⟨by assumption, rfl, rfl⟩
  · split at h
    · right
      cases h
      exact ⟨by assumption, rfl, rfl⟩
    · split at h <;> cases h

/-- C10: for a logged-in user and an active language with labels `l`, the usage
text is `l.unlimited` exactly when `subscription_tier` is ultimate, whatever the
remaining count; for every other tier, a missing one included, it is the value of
`getRemainingVideos`, a blank and `l.videosLeft`. -/
theorem usageText_cases (nativeText : String → String) (isoNow : String)
    (language : String) (l : Labels) (u : User)
    (hl : translations language = .labels l) :
    (u.subscription_tier = some "ultimate" →
      usageText nativeText isoNow language u = .ok (some l.unlimited)) ∧
    (u.subscription_tier ≠ some "ultimate" →
      usageText nativeText isoNow language u
        = .ok (some (templateText nativeText (getRemainingVideos isoNow (some u))
            ++ " " ++ l.videosLeft))) ∧
    (usageText nativeText isoNow language u = .ok (some l.unlimited) ↔
      u.subscription_tier = some "ultimate") := by
  have hu : u.subscription_tier = some "ultimate" →
      usageText nativeText isoNow language u = .ok (some l.unlimited) := by
    intro h
    simp [usageText, hl, h, label]
  have hn : u.subscription_tier ≠ some "ultimate" →
      usageText nativeText isoNow language u
        = .ok (some (templateText nativeText (getRemainingVideos isoNow (some u))
            ++ " " ++ l.videosLeft)) := by
    intro h
    simp [usageText, hl, h, label]
  refine ⟨hu, hn, ?_, hu⟩
  intro h
  by_contra hne
  rw [hn hne] at h
  have hlen := congrArg String.length (Option.some.inj (Except.ok.inj h))
  rw [String.length_append, String.length_append] at hlen
  have e0 : " ".length = 1 := by decide
  have e1 : "videos left today".length = 17 := by decide
  have e2 : "Unlimited".length = 9 := by decide
  have e3 : "今日剩余视频".length = 6 := by decide
  have e4 : "无限制".length = 3 := by decide
  rcases translations_labels language l hl with ⟨-, h1, h2⟩ | ⟨-, h1, h2⟩
  · rw [h1, h2, e0, e1, e2] at hlen
    omega
  · rw [h1, h2, e0, e3, e4] at hlen
    omega

/-- Witness of C10: an ultimate user with 500 generated today reads "Unlimited",
a pro user with 3 generated today reads "2 videos left today". -/
theorem usageText_cases_witness :
    usageText (fun _ => "") "2026-11-06T09:30:00.000Z" "en"
      ⟨some "ultimate", some 500, some "2026-11-06", none⟩ = .ok (some "Unlimited") ∧
    usageText (fun _ => "") "2026-11-06T09:30:00.000Z" "en"
      ⟨some "pro", some 3, some "2026-11-06", none⟩ = .ok (some "2 videos left today") :=
  ⟨(usageText_cases (fun _ => "") "2026-11-06T09:30:00.000Z" "en"
      ⟨"Home", "Generate", "Dashboard", "Pricing", "Login", "Logout", "Profile",
        "Language", "videos left today", "Unlimited", "Upgrade"⟩
      ⟨some "ultimate", some 500, some "2026-11-06", none⟩ rfl).1 rfl,
   (usageText_cases (fun _ => "") "2026-11-06T09:30:00.000Z" "en"
      ⟨"Home", "Generate", "Dashboard", "Pricing", "Login", "Logout", "Profile",
        "Language", "videos left today", "Unlimited", "Upgrade"⟩
      ⟨some "pro", some 3, some "2026-11-06", none⟩ rfl).2.1 (by decide)⟩

end Layout
